import Mathlib

/-!
Verification of the tiptap-to-html rendering engine.

The source is a Rust crate that converts a tiptap/ProseMirror JSON document
tree into an HTML-like string. The definitions below are a shallow embedding
of the code in `src/main.rs`, `src/plugins/mod.rs`, `src/plugins/text.rs`
and `src/error.rs`: JSON values become an inductive type, the plugin trait
becomes a closed inductive over the renderers defined in the crate, the
`HashMap<String, Box<dyn Plugin>>` registry becomes a finite map represented
as a function `String → Option Plugin`, and Rust's `Result`/panic behaviour
becomes `Except RFailure String` with an explicit `panicked` failure for
`unwrap()` on the wrong JSON shape.
-/

/-- Embeds `serde_json::Value`: null, booleans, numbers, strings, arrays and
objects. Objects keep their fields as an ordered association list (the crate
relies on the map's iteration order when serializing attributes). Numbers are
modelled as integers; no claim involves floating-point values. -/
inductive Json where
  | null
  | bool (b : Bool)
  | num (n : Int)
  | str (s : String)
  | arr (elems : List Json)
  | obj (fields : List (String × Json))

/-- Association-list lookup used by `Json.get`, first match wins (serde maps
have unique keys, so this agrees with `serde_json::Map::get`). -/
def Json.lookupField : List (String × Json) → String → Option Json
  | [], _ => none
  | (k, v) :: rest, key => if k = key then some v else Json.lookupField rest key

/-- Embeds `serde_json::Value::get(key)`: field lookup on an object, `None`
on every other value kind. -/
def Json.get : Json → String → Option Json
  | .obj fields, key => Json.lookupField fields key
  | _, _ => none

/-- Embeds `serde_json::Value::as_str`. -/
def Json.asStr : Json → Option String
  | .str s => some s
  | _ => none

/-- Embeds `serde_json::Value::as_array`. -/
def Json.asArray : Json → Option (List Json)
  | .arr elems => some elems
  | _ => none

/-- Embeds `serde_json::Value::as_object`. -/
def Json.asObject : Json → Option (List (String × Json))
  | .obj fields => some fields
  | _ => none

/-- Hex digit characters for the `\u00XX` escapes of serde's string encoder. -/
def hexDigit (n : Nat) : Char :=
  if n < 10 then Char.ofNat (48 + n) else Char.ofNat (87 + n)

/-- Embeds the escaping `serde_json` applies to one character when printing a
JSON string: quote and backslash get a backslash escape, the usual control
characters get their short escapes, the remaining control characters get
`\u00XX`, and everything else is emitted verbatim. -/
def escapeChar (c : Char) : String :=
  if c = '"' then "\\\""
  else if c = '\\' then "\\\\"
  else if c = '\x08' then "\\b"
  else if c = '\x0c' then "\\f"
  else if c = '\n' then "\\n"
  else if c = '\r' then "\\r"
  else if c = '\t' then "\\t"
  else if c.toNat < 32 then
    "\\u00" ++ String.mk [hexDigit (c.toNat / 16), hexDigit (c.toNat % 16)]
  else String.singleton c

/-- Escapes a whole string the way serde's JSON printer does. -/
def escapeStr (s : String) : String :=
  String.join (s.data.map escapeChar)

mutual
/-- Embeds `serde_json::Value::to_string()` (the compact `Display` form):
`null`, `true`/`false`, the decimal number, a quoted escaped string,
comma-separated brackets for arrays and `"key":value` pairs for objects. -/
def Json.toString : Json → String
  | .null => "null"
  | .bool b => cond b "true" "false"
  | .num n => n.repr
  | .str s => "\"" ++ escapeStr s ++ "\""
  | .arr elems => "[" ++ Json.arrToString elems ++ "]"
  | .obj fields => "\x7b" ++ Json.objToString fields ++ "\x7d"

/-- Comma-separated serialization of array elements. -/
def Json.arrToString : List Json → String
  | [] => ""
  | [x] => Json.toString x
  | x :: xs => Json.toString x ++ "," ++ Json.arrToString xs

/-- Comma-separated serialization of object fields. -/
def Json.objToString : List (String × Json) → String
  | [] => ""
  | [(k, v)] => "\"" ++ escapeStr k ++ "\":" ++ Json.toString v
  | (k, v) :: fs =>
      "\"" ++ escapeStr k ++ "\":" ++ Json.toString v ++ "," ++ Json.objToString fs
end

/-- Embeds the `Tag` struct of `src/plugins/mod.rs` (duplicated in
`src/main.rs`): a tag name plus a self-closing flag. -/
structure Tag where
  name : String
  is_self_closing : Bool

/-- Modelled from the spec: the crate's `utils` module (referenced as
`crate::utils::push_front` by `src/plugins/mod.rs`) is not under `src/`.
The spec requires the attribute fragment of a non-self-closing tag to be
"separated from the tag name by exactly one space", so `push_front(s, pre)`
prepends `pre` to `s`; the crate's own pinned output `<p class="test">`
agrees. -/
def push_front (s pre : String) : String := pre ++ s

/-- Embeds `Vec::join(" ")` as applied to `attr_strs` in `Tag::create_attrs`:
the pieces concatenated with a single space between consecutive pieces. -/
def joinSpace : List String → String
  | [] => ""
  | [s] => s
  | s :: rest => s ++ " " ++ joinSpace rest

/-- Embeds the value-to-text `match` inside `Tag::create_attrs`: null becomes
the empty string, a string is substituted verbatim, anything else uses
`Value::to_string()`. -/
def attrValueStr : Json → String
  | .null => ""
  | .str s => s
  | v => Json.toString v

/-- Decidable classifier for the catch-all arm of `attrValueStr`: true
exactly on null and string values. -/
def Json.isNullOrStr : Json → Bool
  | .null => true
  | .str _ => true
  | _ => false

/-- Embeds `Tag::create_attrs` (identical in both copies of the design):
each attribute pair becomes `key="value"` and the fragments are joined with
single spaces, in the map's iteration order. -/
def Tag.create_attrs (attrs : List (String × Json)) : String :=
  joinSpace (attrs.map (fun kv => kv.1 ++ "=\"" ++ attrValueStr kv.2 ++ "\""))

/-- Embeds `Tag::render_opening` of `src/plugins/mod.rs`: a self-closing tag
renders as `<name attrs />` (both spaces always present), any other tag as
`<name attrs>` with the attribute fragment prefixed by one space via
`push_front`, or plain `<name>` when the node has no attrs. -/
def Tag.render_opening (t : Tag) (attrs : Option (List (String × Json))) : String :=
  if t.is_self_closing then
    "<" ++ t.name ++ " " ++ ((attrs.map Tag.create_attrs).getD "") ++ " />"
  else
    "<" ++ t.name ++ (((attrs.map Tag.create_attrs).map (fun s => push_front s " ")).getD "") ++ ">"

/-- Embeds the older duplicate `Tag::render_opening` in `src/main.rs`, which
ignores `attrs` entirely for non-self-closing tags. -/
def Tag.render_opening_main (t : Tag) (attrs : Option (List (String × Json))) : String :=
  if t.is_self_closing then
    "<" ++ t.name ++ " " ++ ((attrs.map Tag.create_attrs).getD "") ++ " />"
  else
    "<" ++ t.name ++ ">"

/-- Embeds `Tag::render_closing`: empty for a self-closing tag, `</name>`
otherwise. -/
def Tag.render_closing (t : Tag) : String :=
  if t.is_self_closing then "" else "</" ++ t.name ++ ">"

/-- Embeds `Tag::render`: opening tag (built from the node's `attrs` object,
if any), then the already-rendered inner output, then the closing tag. -/
def Tag.render (t : Tag) (output : String) (node : Json) : String :=
  t.render_opening ((node.get "attrs").bind Json.asObject) ++ output ++ t.render_closing

/-- Embeds `ProseMirrorError` of `src/error.rs` (named `TiptapError` in the
`src/main.rs` duplicate): the single `TypeNotFound` variant carrying the
optional discriminant that could not be resolved. -/
inductive ProseMirrorError where
  | typeNotFound (type_name : Option String)
deriving DecidableEq

/-- Outcome classifier for running fallible Rust code: either a returned
`ProseMirrorError`, or a panic from an `unwrap()` applied to a JSON value of
the wrong shape. -/
inductive RFailure where
  | render_error (e : ProseMirrorError)
  | panicked
deriving DecidableEq

/-- Result of a render call: `Ok(string)`, a returned error, or a panic. -/
abbrev RResult := Except RFailure String

/-- Embeds the renderers defined in the crate, closed-world: `TextPlugin`
plus the instances of `define_tag_plugin!`, each of which carries only a tag
name and a self-closing flag. -/
inductive Plugin where
  | text
  | tagPlugin (tag_name : String) (is_self_closing : Bool)
deriving DecidableEq

/-- Embeds the `HashMap<String, Box<dyn Plugin>>` registry as the finite map
it denotes. -/
abbrev Registry := String → Option Plugin

/-- Embeds `$struct_name::get_tag` as generated by `define_tag_plugin!`. -/
def Plugin.get_tag (tag_name : String) (is_self_closing : Bool) : Tag :=
  Tag.mk tag_name is_self_closing

/-- Auxiliary size bound: a successful association-list lookup returns a
strictly smaller value. -/
theorem Json.lookupField_sizeOf_lt {fields : List (String × Json)} {key : String}
    {v : Json} (h : Json.lookupField fields key = some v) : sizeOf v < sizeOf fields := by
  induction fields with
  | nil => simp [Json.lookupField] at h
  | cons kv rest ih =>
    obtain ⟨k, w⟩ := kv
    by_cases hk : k = key
    · simp [Json.lookupField, hk] at h
      subst h
      simp
      omega
    · simp [Json.lookupField, hk] at h
      have := ih h
      simp
      omega

/-- Auxiliary size bound: `Json.get` returns a strictly smaller value. -/
theorem Json.get_sizeOf_lt {j : Json} {key : String} {v : Json}
    (h : j.get key = some v) : sizeOf v < sizeOf j := by
  cases j <;> simp [Json.get] at h
  case obj fields =>
    have := Json.lookupField_sizeOf_lt h
    simp
    omega

/-- Auxiliary inversion: `as_array` succeeds only on an array. -/
theorem Json.asArray_eq {j : Json} {xs : List Json} (h : j.asArray = some xs) :
    j = Json.arr xs := by
  cases j <;> simp_all [Json.asArray]

mutual
/-- Embeds `Plugin::render` for the crate's renderers. `TextPlugin::render`
(`src/plugins/text.rs`, duplicated in `src/main.rs`) pushes the node's
`text` field via `as_str().unwrap()` (a panic when present but not a string)
and returns the accumulator, empty when the field is absent. The renderers
generated by `define_tag_plugin!` (`src/plugins/mod.rs`, duplicated in
`src/main.rs`) walk the node's `content` via `as_array().unwrap()` (a panic
when present but not an array), render each child whose `type` is present and
registered (`as_str().unwrap()` on a non-string child type panics, an
unregistered or absent child type is skipped), and wrap the accumulated
output with their tag via `Tag::render`. -/
def Plugin.render : Plugin → Json → Registry → RResult
  | .text, node, _ =>
      (match node.get "text" with
      | some t =>
          (match t.asStr with
          | some s => .ok s
          | none => .error .panicked)
      | none => .ok "")
  | .tagPlugin tag_name is_self_closing, node, plugins =>
      match h : node.get "content" with
      | some content =>
          (match hc : content.asArray with
          | some children =>
              (match renderChildren children plugins with
              | .ok output => .ok ((Plugin.get_tag tag_name is_self_closing).render output node)
              | .error e => .error e)
          | none => .error .panicked)
      | none => .ok ((Plugin.get_tag tag_name is_self_closing).render "" node)
termination_by p node reg => sizeOf node
decreasing_by
  all_goals simp_wf
  have h2 := Json.get_sizeOf_lt h
  have h3 := Json.asArray_eq hc
  subst h3
  simp at h2
  omega

/-- Embeds the `for child_node in content.as_array().unwrap()` loop of the
`define_tag_plugin!` renderers, returning the accumulated output or the
first propagated failure. -/
def renderChildren : List Json → Registry → RResult
  | [], _ => .ok ""
  | child :: rest, plugins =>
      match child.get "type" with
      | some t =>
          (match t.asStr with
          | some s =>
              (match plugins s with
              | some plugin =>
                  (match Plugin.render plugin child plugins with
                  | .ok out =>
                      (match renderChildren rest plugins with
                      | .ok out2 => .ok (out ++ out2)
                      | .error e => .error e)
                  | .error e => .error e)
              | none => renderChildren rest plugins)
          | none => .error .panicked)
      | none => renderChildren rest plugins
termination_by cs reg => sizeOf cs
decreasing_by
  all_goals simp_wf
  all_goals omega
end

/-- Embeds the `Tiptap` struct of `src/main.rs` (the in-src duplicate of the
library's `ProseMirror` entry facade): a root document value plus the plugin
registry. -/
structure Tiptap where
  content : Json
  plugins : Registry

/-- Embeds `Tiptap::new`: stores the content with an empty registry. -/
def Tiptap.new (content : Json) : Tiptap :=
  Tiptap.mk content (fun _ => none)

/-- Embeds `Tiptap::add_plugin` (`HashMap::insert`): later registrations for
the same discriminant replace earlier ones, other keys are untouched. -/
def Tiptap.add_plugin (t : Tiptap) (node_type : String) (plugin : Plugin) : Tiptap :=
  Tiptap.mk t.content (fun k => if k = node_type then some plugin else t.plugins k)

/-- Embeds `Tiptap::render` (`src/main.rs`): read the root `type`; when it is
present, `as_str().unwrap()` it (a panic on a non-string) and look it up;
delegate to a registered plugin unchanged; otherwise fall through to
`TypeNotFound` whose payload re-reads the `type` field with
`as_str().unwrap_or_default()`. -/
def Tiptap.render (t : Tiptap) : RResult :=
  match t.content.get "type" with
  | some node_type =>
      (match node_type.asStr with
      | none => .error .panicked
      | some s =>
          match t.plugins s with
          | some plugin => Plugin.render plugin t.content t.plugins
          | none =>
              .error (.render_error (.typeNotFound
                ((t.content.get "type").map (fun u => u.asStr.getD "")))))
  | none =>
      .error (.render_error (.typeNotFound
        ((t.content.get "type").map (fun u => u.asStr.getD ""))))

/-- Embeds the `TextPlugin` renderer value. -/
def TextPlugin : Plugin := Plugin.text

/-- Embeds `define_tag_plugin!(DocPlugin, "doc", "div", false)`. -/
def DocPlugin : Plugin := Plugin.tagPlugin "div" false

/-- Embeds `define_tag_plugin!(ParagraphPlugin, "paragraph", "p", false)`. -/
def ParagraphPlugin : Plugin := Plugin.tagPlugin "p" false

/-- Embeds `define_tag_plugin!(ImagePlugin, "image", "img", true)`. -/
def ImagePlugin : Plugin := Plugin.tagPlugin "img" true

/-- Embeds `TextPlugin::register`. -/
def TextPlugin.register (t : Tiptap) : Tiptap := t.add_plugin "text" TextPlugin

/-- Embeds `DocPlugin::register`. -/
def DocPlugin.register (t : Tiptap) : Tiptap := t.add_plugin "doc" DocPlugin

/-- Embeds `ParagraphPlugin::register`. -/
def ParagraphPlugin.register (t : Tiptap) : Tiptap := t.add_plugin "paragraph" ParagraphPlugin

/-- Embeds `ImagePlugin::register`. -/
def ImagePlugin.register (t : Tiptap) : Tiptap := t.add_plugin "image" ImagePlugin

/-- Auxiliary inversion: `as_str` succeeds only on a string. -/
theorem Json.asStr_eq {j : Json} {s : String} (h : j.asStr = some s) :
    j = Json.str s := by
  cases j <;> simp_all [Json.asStr]

/-- Checks that a field of an object, when present, is a JSON string. Part
of the shape precondition under which `render()` never hits an `unwrap()`
panic. -/
def keyIsStrOk (fields : List (String × Json)) (key : String) : Bool :=
  match Json.lookupField fields key with
  | some (.str _) => true
  | some _ => false
  | none => true

/-- Checks that the `content` field of an object, when present, is a JSON
array. -/
def keyIsArrOk (fields : List (String × Json)) : Bool :=
  match Json.lookupField fields "content" with
  | some (.arr _) => true
  | some _ => false
  | none => true

mutual
/-- Shape precondition for panic-freedom: everywhere in the tree, a `type`
field is a string when present, a `text` field is a string when present, and
a `content` field is an array when present. -/
def Json.wfB : Json → Bool
  | .obj fields =>
      keyIsStrOk fields "type" && keyIsStrOk fields "text" &&
        keyIsArrOk fields && Json.wfFieldsB fields
  | .arr elems => Json.wfListB elems
  | _ => true

/-- Shape precondition for every element of an array. -/
def Json.wfListB : List Json → Bool
  | [] => true
  | x :: xs => Json.wfB x && Json.wfListB xs

/-- Shape precondition for every field value of an object. -/
def Json.wfFieldsB : List (String × Json) → Bool
  | [] => true
  | kv :: fs => Json.wfB kv.2 && Json.wfFieldsB fs
end

/-- Modelled from the spec: the repository contains no parser, but the spec's
testable property "rendering and re-parsing a self-closing tag's opening
fragment recovers the same key/value pairs in the same order" needs one.
`parseKeyL` reads an attribute key: everything up to an `=` that must be
followed by an opening quote. -/
def parseKeyL : List Char → Option (List Char × List Char)
  | [] => none
  | c :: rest =>
      if c = '=' then
        match rest with
        | '"' :: rest2 => some ([], rest2)
        | _ => none
      else
        match parseKeyL rest with
        | some (k, r) => some (c :: k, r)
        | none => none

/-- Modelled from the spec (see `parseKeyL`): reads an attribute value, i.e.
everything up to the closing quote. -/
def parseValL : List Char → Option (List Char × List Char)
  | [] => none
  | c :: rest =>
      if c = '"' then some ([], rest)
      else
        match parseValL rest with
        | some (v, r) => some (c :: v, r)
        | none => none

/-- Modelled from the spec (see `parseKeyL`): parses a whole attribute
fragment as `key="value"` pairs separated by single spaces, with fuel for
termination (one unit per pair suffices). -/
def parsePairsF : Nat → List Char → Option (List (List Char × List Char))
  | _, [] => some []
  | 0, _ :: _ => none
  | fuel + 1, c :: cs =>
      match parseKeyL (c :: cs) with
      | none => none
      | some (k, r) =>
          match parseValL r with
          | none => none
          | some (v, r2) =>
              match r2 with
              | [] => some [(k, v)]
              | c2 :: more =>
                  if c2 = ' ' then
                    match parsePairsF fuel more with
                    | some ps => some ((k, v) :: ps)
                    | none => none
                  else none

/-- Modelled from the spec (see `parseKeyL`): parses an attribute fragment
string into its key/value pairs. -/
def parseAttrs (s : String) : Option (List (String × String)) :=
  (parsePairsF s.data.length s.data).map
    (List.map (fun p => (String.mk p.1, String.mk p.2)))

/-- Text leaf of the spec's scenario 1. -/
def scenario1TextNode : Json :=
  .obj [("type", .str "text"),
        ("text", .str "This is a comment on the Leafs thread")]

/-- Paragraph node of the spec's scenario 1. -/
def scenario1ParaNode : Json :=
  .obj [("type", .str "paragraph"), ("content", .arr [scenario1TextNode])]

/-- Concrete input of the spec's scenario 1:
`{"type":"doc","content":[{"type":"paragraph","content":[{"type":"text","text":"This is a comment on the Leafs thread"}]}]}`. -/
def scenario1Content : Json :=
  .obj [("type", .str "doc"), ("content", .arr [scenario1ParaNode])]

/-- Document renderer for scenario 1: doc, paragraph and text registered. -/
def scenario1Tiptap : Tiptap :=
  TextPlugin.register (ParagraphPlugin.register (DocPlugin.register
    (Tiptap.new scenario1Content)))

/-- Text leaf of the spec's scenario 2. -/
def scenario2TextNode : Json :=
  .obj [("type", .str "text"), ("text", .str "hi")]

/-- Concrete input of the spec's scenario 2:
`{"type":"paragraph","attrs":{"class":"test"},"content":[{"type":"text","text":"hi"}]}`. -/
def scenario2Content : Json :=
  .obj [("type", .str "paragraph"),
        ("attrs", .obj [("class", .str "test")]),
        ("content", .arr [scenario2TextNode])]

/-- Document renderer for scenario 2: paragraph and text registered. -/
def scenario2Tiptap : Tiptap :=
  TextPlugin.register (ParagraphPlugin.register (Tiptap.new scenario2Content))

/-- Concrete input of the spec's scenario 3:
`{"type":"image","attrs":{"alt":"x","src":"y","title":null}}`. -/
def scenario3Content : Json :=
  .obj [("type", .str "image"),
        ("attrs", .obj [("alt", .str "x"), ("src", .str "y"), ("title", .null)])]

/-- Document renderer for scenario 3: only image registered. -/
def scenario3Tiptap : Tiptap :=
  ImagePlugin.register (Tiptap.new scenario3Content)

/-- Ill-shaped input for the safety claim: a root whose `type` is a number. -/
def badRootType : Json := .obj [("type", .num 5)]

/-- Ill-shaped input for the safety claim: a registered container whose
`content` is an object instead of an array. -/
def badContentShape : Json :=
  .obj [("type", .str "doc"), ("content", .obj [])]

/-- Step lemma: the text renderer on a node whose `text` field is a string. -/
theorem render_text_ok {node : Json} {reg : Registry} {t : Json} {s : String}
    (h1 : node.get "text" = some t) (h2 : t.asStr = some s) :
    Plugin.render .text node reg = .ok s := by
  simp [Plugin.render, h1, h2]

/-- Step lemma: the text renderer panics on a non-string `text` field. -/
theorem render_text_panic {node : Json} {reg : Registry} {t : Json}
    (h1 : node.get "text" = some t) (h2 : t.asStr = none) :
    Plugin.render .text node reg = .error .panicked := by
  simp [Plugin.render, h1, h2]

/-- Step lemma: the text renderer returns the empty string when `text` is
absent. -/
theorem render_text_none {node : Json} {reg : Registry}
    (h1 : node.get "text" = none) :
    Plugin.render .text node reg = .ok "" := by
  simp [Plugin.render, h1]

/-- Step lemma: a tag renderer whose children all rendered successfully. -/
theorem render_tag_ok {tag_name : String} {sc : Bool} {node : Json} {reg : Registry}
    {children : List Json} {out : String}
    (h1 : node.get "content" = some (.arr children))
    (h2 : renderChildren children reg = .ok out) :
    Plugin.render (.tagPlugin tag_name sc) node reg =
      .ok ((Plugin.get_tag tag_name sc).render out node) := by
  simp only [Plugin.render]
  split
  · rename_i content heq
    rw [h1] at heq
    injection heq with heq
    subst heq
    simp [Json.asArray, h2]
  · rename_i heq
    rw [h1] at heq
    cases heq

/-- Step lemma: a tag renderer propagates a failing child render. -/
theorem render_tag_err {tag_name : String} {sc : Bool} {node : Json} {reg : Registry}
    {children : List Json} {e : RFailure}
    (h1 : node.get "content" = some (.arr children))
    (h2 : renderChildren children reg = .error e) :
    Plugin.render (.tagPlugin tag_name sc) node reg = .error e := by
  simp only [Plugin.render]
  split
  · rename_i content heq
    rw [h1] at heq
    injection heq with heq
    subst heq
    simp [Json.asArray, h2]
  · rename_i heq
    rw [h1] at heq
    cases heq

/-- Step lemma: a tag renderer panics when `content` is not an array. -/
theorem render_tag_badcontent {tag_name : String} {sc : Bool} {node : Json}
    {reg : Registry} {content : Json}
    (h1 : node.get "content" = some content) (h2 : content.asArray = none) :
    Plugin.render (.tagPlugin tag_name sc) node reg = .error .panicked := by
  simp only [Plugin.render]
  split
  · rename_i c heq
    rw [h1] at heq
    injection heq with heq
    subst heq
    split
    · rename_i children heq2
      rw [h2] at heq2
      cases heq2
    · rfl
  · rename_i heq
    rw [h1] at heq
    cases heq

/-- Step lemma: a tag renderer with no `content` wraps the empty string. -/
theorem render_tag_nocontent {tag_name : String} {sc : Bool} {node : Json}
    {reg : Registry} (h1 : node.get "content" = none) :
    Plugin.render (.tagPlugin tag_name sc) node reg =
      .ok ((Plugin.get_tag tag_name sc).render "" node) := by
  simp only [Plugin.render]
  split
  · rename_i content heq
    rw [h1] at heq
    cases heq
  · rfl

/-- Step lemma: the child loop on an empty list. -/
theorem renderChildren_nil (reg : Registry) : renderChildren [] reg = .ok "" := by
  simp [renderChildren]

/-- Step lemma: the child loop on a registered child that renders, followed
by a successful remainder. -/
theorem renderChildren_cons_ok {child : Json} {rest : List Json} {reg : Registry}
    {s : String} {plugin : Plugin} {out out2 : String}
    (h1 : child.get "type" = some (.str s)) (h2 : reg s = some plugin)
    (h3 : Plugin.render plugin child reg = .ok out)
    (h4 : renderChildren rest reg = .ok out2) :
    renderChildren (child :: rest) reg = .ok (out ++ out2) := by
  simp [renderChildren, h1, Json.asStr, h2, h3, h4]

/-- Step lemma: the child loop propagates a failure of the remainder. -/
theorem renderChildren_cons_resterr {child : Json} {rest : List Json} {reg : Registry}
    {s : String} {plugin : Plugin} {out : String} {e : RFailure}
    (h1 : child.get "type" = some (.str s)) (h2 : reg s = some plugin)
    (h3 : Plugin.render plugin child reg = .ok out)
    (h4 : renderChildren rest reg = .error e) :
    renderChildren (child :: rest) reg = .error e := by
  simp [renderChildren, h1, Json.asStr, h2, h3, h4]

/-- Step lemma: the child loop propagates a failing child render. -/
theorem renderChildren_cons_err {child : Json} {rest : List Json} {reg : Registry}
    {s : String} {plugin : Plugin} {e : RFailure}
    (h1 : child.get "type" = some (.str s)) (h2 : reg s = some plugin)
    (h3 : Plugin.render plugin child reg = .error e) :
    renderChildren (child :: rest) reg = .error e := by
  simp [renderChildren, h1, Json.asStr, h2, h3]

/-- Step lemma: a child whose `type` string is unregistered is skipped. -/
theorem renderChildren_cons_unreg {child : Json} {rest : List Json} {reg : Registry}
    {s : String} (h1 : child.get "type" = some (.str s)) (h2 : reg s = none) :
    renderChildren (child :: rest) reg = renderChildren rest reg := by
  simp [renderChildren, h1, Json.asStr, h2]

/-- Step lemma: the child loop panics on a non-string child `type`. -/
theorem renderChildren_cons_badtype {child : Json} {rest : List Json} {reg : Registry}
    {t : Json} (h1 : child.get "type" = some t) (h2 : t.asStr = none) :
    renderChildren (child :: rest) reg = .error .panicked := by
  simp [renderChildren, h1, h2]

/-- Step lemma: a child with no `type` field is skipped. -/
theorem renderChildren_cons_notype {child : Json} {rest : List Json} {reg : Registry}
    (h1 : child.get "type" = none) :
    renderChildren (child :: rest) reg = renderChildren rest reg := by
  simp [renderChildren, h1]

/-- Step lemma: the top-level render on a root with no `type` field. -/
theorem tiptap_render_notype {t : Tiptap} (h1 : t.content.get "type" = none) :
    t.render = .error (.render_error (.typeNotFound none)) := by
  simp [Tiptap.render, h1]

/-- Step lemma: the top-level render panics on a non-string root `type`. -/
theorem tiptap_render_badtype {t : Tiptap} {u : Json}
    (h1 : t.content.get "type" = some u) (h2 : u.asStr = none) :
    t.render = .error .panicked := by
  simp [Tiptap.render, h1, h2]

/-- Step lemma: the top-level render fails with the discriminant when the
root `type` string is unregistered. -/
theorem tiptap_render_unregistered {t : Tiptap} {s : String}
    (h1 : t.content.get "type" = some (.str s)) (h2 : t.plugins s = none) :
    t.render = .error (.render_error (.typeNotFound (some s))) := by
  simp [Tiptap.render, h1, Json.asStr, h2]

/-- Step lemma: the top-level render delegates to the registered renderer
unchanged. -/
theorem tiptap_render_delegate {t : Tiptap} {s : String} {plugin : Plugin}
    (h1 : t.content.get "type" = some (.str s)) (h2 : t.plugins s = some plugin) :
    t.render = Plugin.render plugin t.content t.plugins := by
  simp [Tiptap.render, h1, Json.asStr, h2]

/-- Auxiliary invariant: the crate's child loop can only fail by panicking;
it never produces a `TypeNotFound` error, because unknown child types are
skipped rather than reported. -/
theorem renderChildren_never_typeNotFound (cs : List Json) (reg : Registry) :
    ∀ e : ProseMirrorError, renderChildren cs reg ≠ .error (.render_error e) := by
  refine renderChildren.induct
    (fun p node reg => ∀ e, Plugin.render p node reg ≠ .error (.render_error e))
    (fun cs reg => ∀ e, renderChildren cs reg ≠ .error (.render_error e))
    ?_ ?_ ?_ ?_ ?_ ?_ ?_ ?_ ?_ ?_ ?_ ?_ ?_ ?_ cs reg
  · intro node reg t h1 s h2 e
    rw [render_text_ok h1 h2]
    simp
  · intro node reg t h1 h2 e
    rw [render_text_panic h1 h2]
    simp
  · intro node reg h1 e
    rw [render_text_none h1]
    simp
  · intro tag_name sc node plugins content h1 children h2 output h3 ih e
    have hq := Json.asArray_eq h2
    subst hq
    rw [render_tag_ok h1 h3]
    simp
  · intro tag_name sc node plugins content h1 children h2 e0 h3 ih e
    have hq := Json.asArray_eq h2
    subst hq
    rw [render_tag_err h1 h3]
    cases e0 with
    | render_error e' => exact fun hcon => ih e' h3
    | panicked => simp
  · intro tag_name sc node plugins content h1 h2 e
    rw [render_tag_badcontent h1 h2]
    simp
  · intro tag_name sc node plugins h1 e
    rw [render_tag_nocontent h1]
    simp
  · intro reg e
    rw [renderChildren_nil]
    simp
  · intro child rest plugins t h1 s h2 plugin h3 out h4 out2 h5 ih1 ih2 e
    have hq := Json.asStr_eq h2
    subst hq
    rw [renderChildren_cons_ok h1 h3 h4 h5]
    simp
  · intro child rest plugins t h1 s h2 plugin h3 out h4 e0 h5 ih1 ih2 e
    have hq := Json.asStr_eq h2
    subst hq
    rw [renderChildren_cons_resterr h1 h3 h4 h5]
    cases e0 with
    | render_error e' => exact fun hcon => ih2 e' h5
    | panicked => simp
  · intro child rest plugins t h1 s h2 plugin h3 e0 h4 ih1 e
    have hq := Json.asStr_eq h2
    subst hq
    rw [renderChildren_cons_err h1 h3 h4]
    cases e0 with
    | render_error e' => exact fun hcon => ih1 e' h4
    | panicked => simp
  · intro child rest plugins t h1 s h2 h3 ih e
    have hq := Json.asStr_eq h2
    subst hq
    rw [renderChildren_cons_unreg h1 h3]
    exact ih e
  · intro child rest plugins t h1 h2 e
    rw [renderChildren_cons_badtype h1 h2]
    simp
  · intro child rest plugins h1 ih e
    rw [renderChildren_cons_notype h1]
    exact ih e

/-- Auxiliary invariant: no renderer defined by the crate ever returns a
`TypeNotFound` error; a renderer either succeeds or panics. -/
theorem render_never_typeNotFound (p : Plugin) (node : Json) (reg : Registry) :
    ∀ e : ProseMirrorError, Plugin.render p node reg ≠ .error (.render_error e) := by
  intro e
  cases p with
  | text =>
    cases h1 : node.get "text" with
    | none =>
      rw [render_text_none h1]
      simp
    | some t =>
      cases h2 : t.asStr with
      | none =>
        rw [render_text_panic h1 h2]
        simp
      | some s =>
        rw [render_text_ok h1 h2]
        simp
  | tagPlugin tag_name sc =>
    cases h1 : node.get "content" with
    | none =>
      rw [render_tag_nocontent h1]
      simp
    | some content =>
      cases h2 : content.asArray with
      | none =>
        rw [render_tag_badcontent h1 h2]
        simp
      | some children =>
        have hq := Json.asArray_eq h2
        subst hq
        cases h3 : renderChildren children reg with
        | ok out =>
          rw [render_tag_ok h1 h3]
          simp
        | error e0 =>
          rw [render_tag_err h1 h3]
          cases e0 with
          | render_error e' =>
            exact fun hcon => renderChildren_never_typeNotFound children reg e' h3
          | panicked => simp

theorem keyIsStrOk_lookup {fields : List (String × Json)} {key : String} {t : Json}
    (hwf : keyIsStrOk fields key = true) (h : Json.lookupField fields key = some t) :
    ∃ s, t = Json.str s := by
  unfold keyIsStrOk at hwf
  rw [h] at hwf
  cases t <;> simp_all

theorem keyIsArrOk_lookup {fields : List (String × Json)} {c : Json}
    (hwf : keyIsArrOk fields = true) (h : Json.lookupField fields "content" = some c) :
    ∃ xs, c = Json.arr xs := by
  unfold keyIsArrOk at hwf
  rw [h] at hwf
  cases c <;> simp_all

theorem wfFieldsB_lookup {fields : List (String × Json)} {key : String} {v : Json}
    (hwf : Json.wfFieldsB fields = true) (h : Json.lookupField fields key = some v) :
    Json.wfB v = true := by
  induction fields with
  | nil => simp [Json.lookupField] at h
  | cons kv rest ih =>
    obtain ⟨k, w⟩ := kv
    simp [Json.wfFieldsB] at hwf
    simp [Json.lookupField] at h
    by_cases hk : k = key
    · rw [if_pos hk] at h
      injection h with h
      subst h
      exact hwf.1
    · rw [if_neg hk] at h
      exact ih hwf.2 h

theorem wfListB_mem {xs : List Json} {x : Json}
    (hwf : Json.wfListB xs = true) (hx : x ∈ xs) : Json.wfB x = true := by
  induction xs with
  | nil => cases hx
  | cons y ys ih =>
    simp [Json.wfListB] at hwf
    cases hx with
    | head => exact hwf.1
    | tail _ h => exact ih hwf.2 h

theorem wf_get_type {node t : Json} (hwf : Json.wfB node = true)
    (h : node.get "type" = some t) : ∃ s, t = Json.str s := by
  cases node <;> simp [Json.get] at h
  case obj fields =>
    simp [Json.wfB] at hwf
    exact keyIsStrOk_lookup hwf.1.1.1 h

theorem wf_get_text {node t : Json} (hwf : Json.wfB node = true)
    (h : node.get "text" = some t) : ∃ s, t = Json.str s := by
  cases node <;> simp [Json.get] at h
  case obj fields =>
    simp [Json.wfB] at hwf
    exact keyIsStrOk_lookup hwf.1.1.2 h

theorem wf_get_content {node c : Json} (hwf : Json.wfB node = true)
    (h : node.get "content" = some c) : ∃ xs, c = Json.arr xs := by
  cases node <;> simp [Json.get] at h
  case obj fields =>
    simp [Json.wfB] at hwf
    exact keyIsArrOk_lookup hwf.1.2 h

theorem wf_get_child {node v : Json} {key : String} (hwf : Json.wfB node = true)
    (h : node.get key = some v) : Json.wfB v = true := by
  cases node <;> simp [Json.get] at h
  case obj fields =>
    simp [Json.wfB] at hwf
    exact wfFieldsB_lookup hwf.2 h

theorem render_total_of_wf (p : Plugin) (node : Json) (reg : Registry)
    (hwfn : Json.wfB node = true) : ∃ out, Plugin.render p node reg = .ok out := by
  refine Plugin.render.induct
    (fun p node reg => Json.wfB node = true → ∃ out, Plugin.render p node reg = .ok out)
    (fun cs reg => (∀ c ∈ cs, Json.wfB c = true) → ∃ out, renderChildren cs reg = .ok out)
    ?_ ?_ ?_ ?_ ?_ ?_ ?_ ?_ ?_ ?_ ?_ ?_ ?_ ?_ p node reg hwfn
  · intro node reg t h1 s h2 hwf
    exact ⟨s, render_text_ok h1 h2⟩
  · intro node reg t h1 h2 hwf
    obtain ⟨s, rfl⟩ := wf_get_text hwf h1
    simp [Json.asStr] at h2
  · intro node reg h1 hwf
    exact ⟨"", render_text_none h1⟩
  · intro tag_name sc node plugins content h1 children h2 output h3 ih hwf
    have hq := Json.asArray_eq h2
    subst hq
    exact ⟨_, render_tag_ok h1 h3⟩
  · intro tag_name sc node plugins content h1 children h2 e0 h3 ih hwf
    have hq := Json.asArray_eq h2
    subst hq
    have hchild : ∀ c ∈ children, Json.wfB c = true := by
      intro c hc
      have hcontent := wf_get_child hwf h1
      simp [Json.wfB] at hcontent
      exact wfListB_mem hcontent hc
    obtain ⟨out, hout⟩ := ih hchild
    rw [hout] at h3
    cases h3
  · intro tag_name sc node plugins content h1 h2 hwf
    obtain ⟨xs, rfl⟩ := wf_get_content hwf h1
    simp [Json.asArray] at h2
  · intro tag_name sc node plugins h1 hwf
    exact ⟨_, render_tag_nocontent h1⟩
  · intro reg hwf
    exact ⟨"", renderChildren_nil reg⟩
  · intro child rest plugins t h1 s h2 plugin h3 out h4 out2 h5 ih1 ih2 hwf
    have hq := Json.asStr_eq h2
    subst hq
    exact ⟨out ++ out2, renderChildren_cons_ok h1 h3 h4 h5⟩
  · intro child rest plugins t h1 s h2 plugin h3 out h4 e0 h5 ih1 ih2 hwf
    obtain ⟨out2, hout2⟩ := ih2 (fun c hc => hwf c (List.mem_cons_of_mem child hc))
    rw [hout2] at h5
    cases h5
  · intro child rest plugins t h1 s h2 plugin h3 e0 h4 ih1 hwf
    obtain ⟨out, hout⟩ := ih1 (hwf child (List.mem_cons_self child rest))
    rw [hout] at h4
    cases h4
  · intro child rest plugins t h1 s h2 h3 ih hwf
    have hq := Json.asStr_eq h2
    subst hq
    obtain ⟨out, hout⟩ := ih (fun c hc => hwf c (List.mem_cons_of_mem child hc))
    exact ⟨out, by rw [renderChildren_cons_unreg h1 h3]; exact hout⟩
  · intro child rest plugins t h1 h2 hwf
    obtain ⟨s, rfl⟩ := wf_get_type (hwf child (List.mem_cons_self child rest)) h1
    simp [Json.asStr] at h2
  · intro child rest plugins h1 ih hwf
    obtain ⟨out, hout⟩ := ih (fun c hc => hwf c (List.mem_cons_of_mem child hc))
    exact ⟨out, by rw [renderChildren_cons_notype h1]; exact hout⟩

theorem joinSpace_eq_intercalate (l : List String) :
    joinSpace l = String.intercalate " " l := by
  cases l with
  | nil => rfl
  | cons a as =>
    show joinSpace (a :: as) = String.intercalate.go a " " as
    induction as generalizing a with
    | nil => simp [joinSpace, String.intercalate.go]
    | cons b bs ih =>
      show joinSpace (a :: b :: bs) = String.intercalate.go a " " (b :: bs)
      rw [String.intercalate.go]
      rw [← ih (a ++ " " ++ b)]
      cases bs with
      | nil => simp [joinSpace, String.append_assoc]
      | cons c cs => simp [joinSpace, String.append_assoc]

/-- C1: for every registry and every root node, `render()` fails with
`TypeNotFound` if and only if the root's `type` field is absent (payload
`type_name = None`) or its discriminant has no registered renderer (payload
`type_name = Some(discriminant)`); otherwise it delegates to the registered
renderer and returns that renderer's result unchanged — and that result is
never a `TypeNotFound` error. The three conjuncts cover every root whose
`type` field is absent or a string; a root with a non-string `type` aborts
instead (see the safety theorem for C10). -/
theorem tiptap_render_dispatch (t : Tiptap) :
    (t.content.get "type" = none →
      t.render = .error (.render_error (.typeNotFound none))) ∧
    (∀ s : String, t.content.get "type" = some (.str s) → t.plugins s = none →
      t.render = .error (.render_error (.typeNotFound (some s)))) ∧
    (∀ (s : String) (p : Plugin), t.content.get "type" = some (.str s) →
      t.plugins s = some p →
      t.render = Plugin.render p t.content t.plugins ∧
      ∀ tn : Option String,
        t.render ≠ .error (.render_error (.typeNotFound tn))) := by
  refine ⟨fun h => tiptap_render_notype h,
    fun s h1 h2 => tiptap_render_unregistered h1 h2,
    fun s p h1 h2 => ⟨tiptap_render_delegate h1 h2, ?_⟩⟩
  intro tn
  rw [tiptap_render_delegate h1 h2]
  exact render_never_typeNotFound p t.content t.plugins (.typeNotFound tn)

/-- Witness for C1: the three dispatch cases at concrete inputs — a root
with no `type`, the spec's scenario 4 root `{"type":"doc","content":[]}`
with an empty registry, and scenario 1's root delegating to the doc
renderer. -/
theorem tiptap_render_dispatch_witness :
    (Tiptap.new (Json.obj [])).render = .error (.render_error (.typeNotFound none)) ∧
    (Tiptap.new (Json.obj [("type", Json.str "doc"), ("content", Json.arr [])])).render =
      .error (.render_error (.typeNotFound (some "doc"))) ∧
    scenario1Tiptap.render =
      Plugin.render (Plugin.tagPlugin "div" false) scenario1Tiptap.content
        scenario1Tiptap.plugins :=
  ⟨(tiptap_render_dispatch (Tiptap.new (Json.obj []))).1 rfl,
   (tiptap_render_dispatch (Tiptap.new
     (Json.obj [("type", Json.str "doc"), ("content", Json.arr [])]))).2.1 "doc" rfl rfl,
   ((tiptap_render_dispatch scenario1Tiptap).2.2 "doc"
     (Plugin.tagPlugin "div" false) rfl rfl).1⟩

/-- C2: for every non-self-closing tag, the opening tag is
`<name attrs>` with the attribute fragment separated from the tag name by
exactly one space when the node has an `attrs` mapping, and exactly `<name>`
with no trailing space when it does not; and the spec's scenario 2 input
`{"type":"paragraph","attrs":{"class":"test"},"content":[{"type":"text","text":"hi"}]}`
with paragraph and text registered renders to `<p class="test">hi</p>`.
This is the library formatter of `src/plugins/mod.rs`; the older duplicate
in `src/main.rs` (`Tag.render_opening_main`) drops attrs for
non-self-closing tags. -/
theorem nonclosing_opening_format :
    (∀ (name : String) (attrs : List (String × Json)),
      Tag.render_opening (Tag.mk name false) (some attrs) =
        "<" ++ name ++ " " ++ Tag.create_attrs attrs ++ ">") ∧
    (∀ name : String, Tag.render_opening (Tag.mk name false) none = "<" ++ name ++ ">") ∧
    scenario2Tiptap.render = .ok "<p class=\"test\">hi</p>" := by
  refine ⟨?_, ?_, ?_⟩
  · intro name attrs
    simp [Tag.render_opening, push_front, String.append_assoc]
  · intro name
    simp [Tag.render_opening]
  · have h1 : Plugin.render Plugin.text scenario2TextNode scenario2Tiptap.plugins =
        .ok "hi" :=
      render_text_ok
        (show scenario2TextNode.get "text" = some (.str "hi") from rfl) rfl
    have h2 : renderChildren [scenario2TextNode] scenario2Tiptap.plugins = .ok "hi" := by
      rw [renderChildren_cons_ok
        (show scenario2TextNode.get "type" = some (.str "text") from rfl)
        (show scenario2Tiptap.plugins "text" = some Plugin.text from rfl)
        h1 (renderChildren_nil _)]
      rfl
    rw [tiptap_render_delegate
      (show scenario2Tiptap.content.get "type" = some (.str "paragraph") from rfl)
      (show scenario2Tiptap.plugins "paragraph" = some (Plugin.tagPlugin "p" false) from rfl)]
    rw [render_tag_ok
      (show scenario2Tiptap.content.get "content" = some (.arr [scenario2TextNode]) from rfl)
      h2]
    rfl

/-- C5: `create_attrs` produces the `key="value"` pairs in the mapping's
iteration order, joined by a single space, where a null value yields
`key=""`, a text value is substituted verbatim with no escaping, and any
other value kind yields its canonical JSON textual representation
(`Json.toString`, the embedding of `Value::to_string()`). -/
theorem create_attrs_policy :
    (∀ attrs : List (String × Json),
      Tag.create_attrs attrs = String.intercalate " "
        (attrs.map (fun kv => kv.1 ++ "=\"" ++ attrValueStr kv.2 ++ "\""))) ∧
    (∀ (k : String) (v : Json) (kv2 : String × Json) (rest : List (String × Json)),
      Tag.create_attrs ((k, v) :: kv2 :: rest) =
        k ++ "=\"" ++ attrValueStr v ++ "\"" ++ " " ++ Tag.create_attrs (kv2 :: rest)) ∧
    attrValueStr Json.null = "" ∧
    (∀ s : String, attrValueStr (Json.str s) = s) ∧
    (∀ v : Json, Json.isNullOrStr v = false → attrValueStr v = Json.toString v) := by
  refine ⟨?_, ?_, rfl, fun s => rfl, ?_⟩
  · intro attrs
    rw [Tag.create_attrs, joinSpace_eq_intercalate]
  · intro k v kv2 rest
    rfl
  · intro v hv
    cases v <;> simp_all [attrValueStr, Json.isNullOrStr]

/-- Witness for C5: the non-null, non-string arm at the concrete value
`true`, which serializes as its JSON literal. -/
theorem create_attrs_policy_witness :
    Json.isNullOrStr (Json.bool true) = false ∧
    attrValueStr (Json.bool true) = Json.toString (Json.bool true) :=
  ⟨by decide, create_attrs_policy.2.2.2.2 (Json.bool true) (by decide)⟩

/-- C6: for every self-closing tag the opening fragment is
`<name attrs />` with a space before the attribute fragment and before `/>`
even when the node has no attrs (the `<name  />` double-space form), the
closing fragment is empty, and the spec's scenario 3 input
`{"type":"image","attrs":{"alt":"x","src":"y","title":null}}` with only the
image renderer registered renders to `<img alt="x" src="y" title="" />`. -/
theorem self_closing_format :
    (∀ (name : String) (attrs : List (String × Json)),
      Tag.render_opening (Tag.mk name true) (some attrs) =
        "<" ++ name ++ " " ++ Tag.create_attrs attrs ++ " />") ∧
    (∀ name : String,
      Tag.render_opening (Tag.mk name true) none = "<" ++ name ++ " " ++ "" ++ " />") ∧
    (∀ name : String, Tag.render_closing (Tag.mk name true) = "") ∧
    scenario3Tiptap.render = .ok "<img alt=\"x\" src=\"y\" title=\"\" />" := by
  refine ⟨fun name attrs => rfl, fun name => rfl, fun name => rfl, ?_⟩
  rw [tiptap_render_delegate
    (show scenario3Tiptap.content.get "type" = some (.str "image") from rfl)
    (show scenario3Tiptap.plugins "image" = some (Plugin.tagPlugin "img" true) from rfl)]
  rw [render_tag_nocontent
    (show scenario3Tiptap.content.get "content" = none from rfl)]
  rfl

/-- C7: the leaf/text renderer returns the node's `text` field verbatim as
its entire output, returns the empty string when `text` is absent, and never
returns an error (for a present non-string `text` it would abort, not
error — see C10). -/
theorem text_plugin_behaviour (node : Json) (reg : Registry) :
    (∀ s : String, node.get "text" = some (.str s) →
      Plugin.render Plugin.text node reg = .ok s) ∧
    (node.get "text" = none → Plugin.render Plugin.text node reg = .ok "") ∧
    (∀ e : ProseMirrorError,
      Plugin.render Plugin.text node reg ≠ .error (.render_error e)) :=
  ⟨fun s h => render_text_ok h rfl, render_text_none,
   render_never_typeNotFound Plugin.text node reg⟩

/-- Witness for C7: the text renderer at a concrete leaf with `text`
present and at one without it. -/
theorem text_plugin_behaviour_witness :
    Plugin.render Plugin.text scenario1TextNode (fun _ => none) =
      .ok "This is a comment on the Leafs thread" ∧
    Plugin.render Plugin.text (Json.obj []) (fun _ => none) = .ok "" :=
  ⟨(text_plugin_behaviour scenario1TextNode (fun _ => none)).1
      "This is a comment on the Leafs thread" rfl,
   (text_plugin_behaviour (Json.obj []) (fun _ => none)).2.1 rfl⟩

/-- C9: registering a renderer for a discriminant and then looking that
discriminant up returns the newly registered renderer, also when a prior
registration for the same discriminant existed (last registration replaces),
and lookup of any other discriminant is unaffected; lookup is by exact
discriminant match. -/
theorem add_plugin_lookup (t : Tiptap) (k : String) (p : Plugin) :
    ((t.add_plugin k p).plugins k = some p) ∧
    (∀ q : Plugin, ((t.add_plugin k q).add_plugin k p).plugins k = some p) ∧
    (∀ k' : String, k' ≠ k → (t.add_plugin k p).plugins k' = t.plugins k') := by
  refine ⟨by simp [Tiptap.add_plugin], fun q => by simp [Tiptap.add_plugin],
    fun k' hk => by simp [Tiptap.add_plugin, hk]⟩

/-- Witness for C9: registration and lookup at the concrete discriminants
`"doc"` and `"text"`. -/
theorem add_plugin_lookup_witness :
    ((Tiptap.new Json.null).add_plugin "doc" DocPlugin).plugins "doc" = some DocPlugin ∧
    (("text" : String) ≠ "doc" ∧
      ((Tiptap.new Json.null).add_plugin "doc" DocPlugin).plugins "text" =
        (Tiptap.new Json.null).plugins "text") :=
  ⟨(add_plugin_lookup (Tiptap.new Json.null) "doc" DocPlugin).1,
   by decide,
   (add_plugin_lookup (Tiptap.new Json.null) "doc" DocPlugin).2.2 "text" (by decide)⟩

/-- C3: rendering
`{"type":"doc","content":[{"type":"paragraph","content":[{"type":"text","text":"This is a comment on the Leafs thread"}]}]}`
with the doc, paragraph and text renderers registered succeeds and returns
exactly `<div><p>This is a comment on the Leafs thread</p></div>`: children
are rendered left-to-right and wrapped by their parent's tag. -/
theorem render_scenario1 : scenario1Tiptap.render =
    .ok "<div><p>This is a comment on the Leafs thread</p></div>" := by
  have h1 : Plugin.render Plugin.text scenario1TextNode scenario1Tiptap.plugins =
      .ok "This is a comment on the Leafs thread" :=
    render_text_ok
      (show scenario1TextNode.get "text" =
        some (.str "This is a comment on the Leafs thread") from rfl) rfl
  have h2 : renderChildren [scenario1TextNode] scenario1Tiptap.plugins =
      .ok "This is a comment on the Leafs thread" := by
    rw [renderChildren_cons_ok
      (show scenario1TextNode.get "type" = some (.str "text") from rfl)
      (show scenario1Tiptap.plugins "text" = some Plugin.text from rfl)
      h1 (renderChildren_nil _)]
    rfl
  have h3 : Plugin.render (Plugin.tagPlugin "p" false) scenario1ParaNode
      scenario1Tiptap.plugins = .ok "<p>This is a comment on the Leafs thread</p>" := by
    rw [render_tag_ok
      (show scenario1ParaNode.get "content" = some (.arr [scenario1TextNode]) from rfl)
      h2]
    rfl
  have h4 : renderChildren [scenario1ParaNode] scenario1Tiptap.plugins =
      .ok "<p>This is a comment on the Leafs thread</p>" := by
    rw [renderChildren_cons_ok
      (show scenario1ParaNode.get "type" = some (.str "paragraph") from rfl)
      (show scenario1Tiptap.plugins "paragraph" = some (Plugin.tagPlugin "p" false) from rfl)
      h3 (renderChildren_nil _)]
    rfl
  rw [tiptap_render_delegate
    (show scenario1Tiptap.content.get "type" = some (.str "doc") from rfl)
    (show scenario1Tiptap.plugins "doc" = some (Plugin.tagPlugin "div" false) from rfl)]
  rw [render_tag_ok
    (show scenario1Tiptap.content.get "content" = some (.arr [scenario1ParaNode]) from rfl)
    h4]
  rfl

/-- C10: `render()` is total — it returns `Ok` or a `TypeNotFound` error,
never aborts — for every input tree in which each `type` field, when
present, is a JSON string, each `content` field, when present, is a JSON
array, and each `text` field, when present, is a JSON string (`Json.wfB`);
outside this precondition, a root whose `type` is the number 5 and a
registered container whose `content` is an object both abort via an
unchecked `unwrap()`. -/
theorem render_safety :
    (∀ t : Tiptap, Json.wfB t.content = true →
      (∃ s, t.render = .ok s) ∨
      (∃ tn, t.render = .error (.render_error (.typeNotFound tn)))) ∧
    ((Tiptap.new badRootType).render = .error .panicked) ∧
    ((DocPlugin.register (Tiptap.new badContentShape)).render = .error .panicked) := by
  refine ⟨?_, ?_, ?_⟩
  · intro t hwf
    cases h1 : t.content.get "type" with
    | none => exact Or.inr ⟨none, tiptap_render_notype h1⟩
    | some u =>
      obtain ⟨s, rfl⟩ := wf_get_type hwf h1
      cases h3 : t.plugins s with
      | none => exact Or.inr ⟨some s, tiptap_render_unregistered h1 h3⟩
      | some p =>
        obtain ⟨out, hout⟩ := render_total_of_wf p t.content t.plugins hwf
        exact Or.inl ⟨out, (tiptap_render_delegate h1 h3).trans hout⟩
  · exact tiptap_render_badtype
      (show badRootType.get "type" = some (.num 5) from rfl) rfl
  · rw [tiptap_render_delegate
      (show badContentShape.get "type" = some (.str "doc") from rfl)
      (show (DocPlugin.register (Tiptap.new badContentShape)).plugins "doc" =
        some (Plugin.tagPlugin "div" false) from rfl)]
    exact render_tag_badcontent
      (show badContentShape.get "content" = some (.obj []) from rfl) rfl

/-- Witness for C10: the totality disjunction at scenario 1's well-shaped
document. -/
theorem render_safety_witness :
    Json.wfB scenario1Tiptap.content = true ∧
    ((∃ s, scenario1Tiptap.render = .ok s) ∨
      (∃ tn, scenario1Tiptap.render = .error (.render_error (.typeNotFound tn)))) :=
  ⟨by decide, render_safety.1 scenario1Tiptap (by decide)⟩

/-- C4: inside a container, a child whose `type` discriminant is not in
the registry, or that lacks a `type` field entirely, contributes nothing to
the parent's output and raises no error, while the surrounding siblings are
rendered unchanged in their original order; an unknown type is fatal only at
the root dispatch, where it yields `TypeNotFound`. -/
theorem child_skip_policy :
    (∀ (reg : Registry) (c : Json) (pre post : List Json),
      (c.get "type" = none ∨ ∃ s, c.get "type" = some (.str s) ∧ reg s = none) →
      renderChildren (pre ++ c :: post) reg = renderChildren (pre ++ post) reg) ∧
    (∀ (t : Tiptap) (s : String), t.content.get "type" = some (.str s) →
      t.plugins s = none →
      t.render = .error (.render_error (.typeNotFound (some s)))) := by
  constructor
  · intro reg c pre post hc
    induction pre with
    | nil =>
      simp only [List.nil_append]
      rcases hc with h | ⟨s, h1, h2⟩
      · exact renderChildren_cons_notype h
      · exact renderChildren_cons_unreg h1 h2
    | cons a pre ih =>
      simp only [List.cons_append]
      cases h1 : a.get "type" with
      | none => rw [renderChildren_cons_notype h1, renderChildren_cons_notype h1, ih]
      | some u =>
        cases h2 : u.asStr with
        | none => rw [renderChildren_cons_badtype h1 h2, renderChildren_cons_badtype h1 h2]
        | some s =>
          obtain rfl := Json.asStr_eq h2
          cases h3 : reg s with
          | none => rw [renderChildren_cons_unreg h1 h3, renderChildren_cons_unreg h1 h3, ih]
          | some plugin =>
            cases h4 : Plugin.render plugin a reg with
            | error e =>
              rw [renderChildren_cons_err h1 h3 h4, renderChildren_cons_err h1 h3 h4]
            | ok out =>
              cases h5 : renderChildren (pre ++ c :: post) reg with
              | ok out2 =>
                have h5' : renderChildren (pre ++ post) reg = .ok out2 := ih ▸ h5
                rw [renderChildren_cons_ok h1 h3 h4 h5,
                  renderChildren_cons_ok h1 h3 h4 h5']
              | error e =>
                have h5' : renderChildren (pre ++ post) reg = .error e := ih ▸ h5
                rw [renderChildren_cons_resterr h1 h3 h4 h5,
                  renderChildren_cons_resterr h1 h3 h4 h5']
  · intro t s h1 h2
    exact tiptap_render_unregistered h1 h2

/-- Witness for C4: a child of unregistered type `"blink"` between two
registered siblings is skipped, and the same unknown type at the root is
fatal. -/
theorem child_skip_policy_witness :
    ((Json.obj [("type", Json.str "blink")]).get "type" = some (.str "blink") ∧
      scenario1Tiptap.plugins "blink" = none) ∧
    renderChildren ([scenario1TextNode] ++ Json.obj [("type", Json.str "blink")] :: [scenario1ParaNode])
        scenario1Tiptap.plugins =
      renderChildren ([scenario1TextNode] ++ [scenario1ParaNode]) scenario1Tiptap.plugins ∧
    (Tiptap.new (Json.obj [("type", Json.str "doc"), ("content", Json.arr [])])).render =
      .error (.render_error (.typeNotFound (some "doc"))) :=
  ⟨⟨rfl, rfl⟩,
   child_skip_policy.1 scenario1Tiptap.plugins (Json.obj [("type", Json.str "blink")])
     [scenario1TextNode] [scenario1ParaNode] (Or.inr ⟨"blink", rfl, rfl⟩),
   child_skip_policy.2 (Tiptap.new (Json.obj [("type", Json.str "doc"), ("content", Json.arr [])]))
     "doc" rfl rfl⟩

theorem parseKeyL_spec : ∀ (k rest : List Char), ('=' : Char) ∉ k →
    parseKeyL (k ++ '=' :: '"' :: rest) = some (k, rest) := by
  intro k
  induction k with
  | nil =>
    intro rest hk
    simp [parseKeyL]
  | cons c ks ih =>
    intro rest hk
    have hc : c ≠ '=' := fun h => hk (h ▸ List.mem_cons_self c ks)
    simp only [List.cons_append, parseKeyL, if_neg hc, List.append_eq]
    rw [ih rest (fun h => hk (List.mem_cons_of_mem c h))]

theorem parseValL_spec : ∀ (v rest : List Char), ('"' : Char) ∉ v →
    parseValL (v ++ '"' :: rest) = some (v, rest) := by
  intro v
  induction v with
  | nil =>
    intro rest hv
    simp [parseValL]
  | cons c vs ih =>
    intro rest hv
    have hc : c ≠ '"' := fun h => hv (h ▸ List.mem_cons_self c vs)
    simp only [List.cons_append, parseValL, if_neg hc, List.append_eq]
    rw [ih rest (fun h => hv (List.mem_cons_of_mem c h))]

theorem ca_single_data (k : String) (v : Json) :
    (Tag.create_attrs [(k, v)]).data =
      k.data ++ '=' :: '"' :: ((attrValueStr v).data ++ ['"']) := by
  show (k ++ "=\"" ++ attrValueStr v ++ "\"").data = _
  simp [String.data_append]

theorem ca_cons_data (k : String) (v : Json) (kv2 : String × Json)
    (rest : List (String × Json)) :
    (Tag.create_attrs ((k, v) :: kv2 :: rest)).data =
      k.data ++ '=' :: '"' ::
        ((attrValueStr v).data ++ '"' :: ' ' :: (Tag.create_attrs (kv2 :: rest)).data) := by
  show (k ++ "=\"" ++ attrValueStr v ++ "\"" ++ " " ++ Tag.create_attrs (kv2 :: rest)).data = _
  simp [String.data_append]

theorem ca_len_ge : ∀ attrs : List (String × Json),
    attrs.length ≤ (Tag.create_attrs attrs).data.length := by
  intro attrs
  induction attrs with
  | nil => simp [Tag.create_attrs, joinSpace]
  | cons kv rest ih =>
    obtain ⟨k, v⟩ := kv
    cases rest with
    | nil =>
      rw [List.length_cons, ca_single_data]
      simp only [List.length_append, List.length_cons, List.length_nil]
      omega
    | cons kv2 rest' =>
      rw [List.length_cons, ca_cons_data]
      simp only [List.length_append, List.length_cons] at ih ⊢
      omega

theorem parsePairsF_succ (f : Nat) (l : List Char) (hl : l ≠ []) :
    parsePairsF (f + 1) l =
      match parseKeyL l with
      | none => none
      | some (k, r) =>
          match parseValL r with
          | none => none
          | some (v, r2) =>
              match r2 with
              | [] => some [(k, v)]
              | c2 :: more =>
                  if c2 = ' ' then
                    match parsePairsF f more with
                    | some ps => some ((k, v) :: ps)
                    | none => none
                  else none := by
  cases l with
  | nil => exact absurd rfl hl
  | cons c cs => rfl

theorem parsePairsF_roundtrip : ∀ (attrs : List (String × Json)) (fuel : Nat),
    attrs.length ≤ fuel →
    (∀ kv ∈ attrs, ('=' : Char) ∉ kv.1.data) →
    (∀ kv ∈ attrs, ('"' : Char) ∉ (attrValueStr kv.2).data) →
    parsePairsF fuel (Tag.create_attrs attrs).data =
      some (attrs.map (fun kv => (kv.1.data, (attrValueStr kv.2).data))) := by
  intro attrs
  induction attrs with
  | nil =>
    intro fuel hf hk hv
    show parsePairsF fuel [] = some []
    cases fuel <;> rfl
  | cons kv rest ih =>
    intro fuel hf hk hv
    obtain ⟨k, v⟩ := kv
    cases fuel with
    | zero => simp at hf
    | succ f =>
      have hkey : ('=' : Char) ∉ k.data := hk (k, v) (List.mem_cons_self _ _)
      have hval : ('"' : Char) ∉ (attrValueStr v).data := hv (k, v) (List.mem_cons_self _ _)
      cases rest with
      | nil =>
        rw [ca_single_data, parsePairsF_succ f _ (by simp)]
        have hkeq := parseKeyL_spec k.data ((attrValueStr v).data ++ ['"']) hkey
        have hveq := parseValL_spec (attrValueStr v).data [] hval
        simp [hkeq, hveq]
      | cons kv2 rest' =>
        rw [ca_cons_data, parsePairsF_succ f _ (by simp)]
        have hkeq := parseKeyL_spec k.data
          ((attrValueStr v).data ++ '"' :: ' ' :: (Tag.create_attrs (kv2 :: rest')).data) hkey
        have hveq := parseValL_spec (attrValueStr v).data
          (' ' :: (Tag.create_attrs (kv2 :: rest')).data) hval
        have hlen : (kv2 :: rest').length ≤ f := by
          simp only [List.length_cons] at hf ⊢
          omega
        have hrec := ih f hlen (fun kv hm => hk kv (List.mem_cons_of_mem _ hm))
          (fun kv hm => hv kv (List.mem_cons_of_mem _ hm))
        simp [hkeq, hveq, hrec]

/-- C8 (amended): serializing an attribute mapping and re-parsing the
resulting attribute fragment recovers exactly the serialized key/value pairs
in the same order, provided no key contains `=` and no serialized value
contains a double quote; without that proviso the round trip fails because
values are substituted unescaped (see the counterexample). -/
theorem attr_fragment_roundtrip (attrs : List (String × Json))
    (hkeys : ∀ kv ∈ attrs, ('=' : Char) ∉ kv.1.data)
    (hvals : ∀ kv ∈ attrs, ('"' : Char) ∉ (attrValueStr kv.2).data) :
    parseAttrs (Tag.create_attrs attrs) =
      some (attrs.map (fun kv => (kv.1, attrValueStr kv.2))) := by
  unfold parseAttrs
  rw [parsePairsF_roundtrip attrs _ (ca_len_ge attrs) hkeys hvals]
  simp [List.map_map]

/-- Counterexample for C8 as stated: the attribute mapping
`[("a", "x\" b=\"y")]` serializes to `a="x" b="y"`, which re-parses as the
two pairs `("a","x")` and `("b","y")`, not as the original single pair —
attribute values are not escaped, so the round trip fails. -/
theorem attr_roundtrip_counterexample :
    parseAttrs (Tag.create_attrs [("a", Json.str "x\" b=\"y")]) =
      some [("a", "x"), ("b", "y")] ∧
    parseAttrs (Tag.create_attrs [("a", Json.str "x\" b=\"y")]) ≠
      some ([("a", Json.str "x\" b=\"y")].map (fun kv => (kv.1, attrValueStr kv.2))) := by
  constructor
  · decide
  · decide

/-- Witness for C8 (amended): the round trip at the concrete mapping
`[("alt","x"), ("title",null)]`, whose keys and serialized values satisfy
the proviso. -/
theorem attr_fragment_roundtrip_witness :
    parseAttrs (Tag.create_attrs [("alt", Json.str "x"), ("title", Json.null)]) =
      some ([("alt", Json.str "x"), ("title", Json.null)].map
        (fun kv => (kv.1, attrValueStr kv.2))) :=
  attr_fragment_roundtrip [("alt", Json.str "x"), ("title", Json.null)]
    (by decide) (by decide)
